import Mathlib

/-!
Shallow embedding of `src/stock_dashboard.py` (a Streamlit stock dashboard)
and proofs about its formatting helpers, its time-window resolution, and the
module-body control flow.

Numbers that Python handles as ints/floats are modelled as rationals (`ℚ`);
every numeric literal of the program and every value exercised here is exact
in `ℚ`. Time instants are modelled as integer day counts. A Python
expression that may raise is modelled with `Option`/`Except`: `none` /
`.error` marks the raised exception. The external collaborators (the
yfinance provider, the Streamlit rendering surface) are parameters of the
embedding: provider responses are inputs, and each `st.error` / `st.warning`
call is recorded as an emitted message.
-/

/-- Floor of a nonnegative rational: integer division of numerator by
denominator (truncation coincides with floor when the argument is ≥ 0). -/
def floorNonneg (q : ℚ) : ℤ := q.num / (q.den : ℤ)

/-- Round a nonnegative rational to the nearest integer, ties to even —
the rounding Python's fixed-point formatting applies to the scaled value. -/
def roundHalfEvenNonneg (q : ℚ) : ℤ :=
  let f := floorNonneg q
  let frac := q - (f : ℚ)
  if frac < 1/2 then f
  else if 1/2 < frac then f + 1
  else if f % 2 = 0 then f else f + 1

/-- Model of Python's fixed-point two-decimal format (the `:.2f` spec):
sign, integer part, a dot, and exactly two decimal digits. -/
def format2f (q : ℚ) : String :=
  let sign := if q < 0 then "-" else ""
  let a := if q < 0 then -q else q
  let cents := (roundHalfEvenNonneg (a * 100)).toNat
  let fracPart := cents % 100
  sign ++ toString (cents / 100) ++ "." ++
    (if fracPart < 10 then "0" ++ toString fracPart else toString fracPart)

/-- Embedding of `format_large_number` (src/stock_dashboard.py lines 47-61):
`None` maps to `"N/A"`; otherwise the first matching threshold among
1e12 (T), 1e9 (B), 1e6 (M), 1e3 (K) scales the value; below 1e3 the plain
two-decimal currency format applies. -/
def format_large_number (num : Option ℚ) : String :=
  match num with
  | none => "N/A"
  | some n =>
    if 1000000000000 ≤ n then "$" ++ format2f (n / 1000000000000) ++ "T"
    else if 1000000000 ≤ n then "$" ++ format2f (n / 1000000000) ++ "B"
    else if 1000000 ≤ n then "$" ++ format2f (n / 1000000) ++ "M"
    else if 1000 ≤ n then "$" ++ format2f (n / 1000) ++ "K"
    else "$" ++ format2f n

/-- Embedding of the Current Price metric delta argument
(src/stock_dashboard.py lines 133-137): the percent change
`((current_price / info.get(previousClose, current_price)) - 1) * 100`
formatted to two decimals with a percent sign, produced only when the
`previousClose` key is in `info` (modelled by `previousClose = some p`),
and the Python value `None` otherwise. The result `some none` models the
delta argument `None` (delta omitted); `some (some s)` models the delta
string `s`; the outer `none` models the `ZeroDivisionError` raised by the
division when the previous close is 0 — the division is evaluated inside
the f-string before formatting, and nothing in the module body catches
it. -/
def percentChangeDelta (current : ℚ) (previousClose : Option ℚ) :
    Option (Option String) :=
  match previousClose with
  | none => some none
  | some p =>
    if p = 0 then none
    else some (some (format2f ((current / p - 1) * 100) ++ "%"))

/-- Embedding of the window computation inside `get_historical_data`
(src/stock_dashboard.py lines 28-39); time is counted in whole days and
`now` models `datetime.now()`. Returns `(start_date, end_date)`. -/
def resolveWindow (period : String) (now : ℤ) : ℤ × ℤ :=
  let end_date := now
  let start_date :=
    if period = "1 Week" then end_date - 7
    else if period = "1 Month" then end_date - 30
    else if period = "6 Months" then end_date - 180
    else if period = "1 Year" then end_date - 365
    else end_date - 30
  (start_date, end_date)

/-- Kind of a Streamlit message surface used by the script: `st.error`,
`st.warning`, or `st.info` (the informational banner, which the script
never calls but the framework offers). -/
inductive MsgKind
  | error
  | warning
  | info
deriving DecidableEq, Repr

/-- One message emitted to the rendering surface. -/
structure Msg where
  kind : MsgKind
  text : String
deriving DecidableEq, Repr

/-- A value stored in the provider `info` dictionary. -/
inductive PyVal
  | str (s : String)
  | num (q : ℚ)

/-- The provider profile dictionary `ticker.info`, modelled as an
association list; Python truthiness of the dictionary is its
non-emptiness. -/
def Info : Type := List (String × PyVal)

/-- Emptiness of the profile dictionary (Python falsiness of `info`). -/
def Info.isEmpty (i : Info) : Bool := List.isEmpty i

/-- Key lookup in the profile dictionary: `info.get(k)` / `k in info`. -/
def Info.lookup (i : Info) (k : String) : Option PyVal := List.lookup k i

/-- Whether applying a numeric format spec (`:.2f` or `:,`) to this value
raises: Python raises TypeError/ValueError when the value is a string. -/
def PyVal.numFormatRaises : PyVal → Bool
  | .num _ => false
  | .str _ => true

/-- Python truthiness of a dictionary value: a number is truthy iff
nonzero, a string iff non-empty. -/
def PyVal.truthy : PyVal → Bool
  | .num q => !(q.num == 0)
  | .str s => !(s == "")

/-- Whether this value is the string "N/A" (the sentinel the script
compares `current_price` against on line 132; a number never equals a
string in Python). -/
def PyVal.isNAStr : PyVal → Bool
  | .str s => s == "N/A"
  | .num _ => false

/-- Whether the Python division `v / w` raises: TypeError when either
operand is a string, ZeroDivisionError when the divisor is zero. -/
def divRaises : PyVal → PyVal → Bool
  | .num _, .num q => q.num == 0
  | _, _ => true

/-- Whether the Key Stock Metrics block (src/stock_dashboard.py lines
124-149) raises an uncaught exception for this profile dictionary. The
company-information block before it (lines 101-122) interpolates values
into plain f-strings and cannot raise; the metrics block applies numeric
format specs and one division, each of which can. Per metric:
line 132-137 Current Price — when `currentPrice` is a key and its value is
not the string "N/A", the value is formatted with `:.2f` (raises on a
string) and, when `previousClose` is also a key, divided by its value
(raises on a string divisor or a zero divisor — the line 136 bug);
line 141 Previous Close — `:.2f` on the value when the key is present;
line 144 Market Cap — `format_large_number` compares the value against
integer thresholds, which raises on a string;
line 145 Volume — `:,` on the value when the key is present;
line 148 P/E — `:.2f` on the value when the key is present and truthy;
line 149 52 Week Range — `:.2f` on both values when both keys are
present. Nothing in the module body catches these, so a true result halts
the script run. -/
def metricsCrash (info : Info) : Bool :=
  (match info.lookup "currentPrice" with
   | none => false
   | some v =>
     if v.isNAStr then false
     else
       v.numFormatRaises ||
       (match info.lookup "previousClose" with
        | none => false
        | some w => divRaises v w)) ||
  (match info.lookup "previousClose" with
   | none => false
   | some w => w.numFormatRaises) ||
  (match info.lookup "marketCap" with
   | none => false
   | some v => v.numFormatRaises) ||
  (match info.lookup "volume" with
   | none => false
   | some v => v.numFormatRaises) ||
  (match info.lookup "trailingPE" with
   | none => false
   | some v => v.truthy && v.numFormatRaises) ||
  (match info.lookup "fiftyTwoWeekLow", info.lookup "fiftyTwoWeekHigh" with
   | some lo, some hi => lo.numFormatRaises || hi.numFormatRaises
   | _, _ => false)

/-- One OHLCV row of the historical series returned by
`ticker.history(start, end)`. -/
structure OhlcvRow where
  date : ℤ
  open_ : ℚ
  high : ℚ
  low : ℚ
  close : ℚ
  volume : ℚ

/-- The external market-data provider: `info` models constructing
`yf.Ticker(symbol)` and reading `.info` (`.error` is a raised exception),
and `history` models `ticker.history(start=start_date, end=end_date)` for
the ticker bound to the symbol. -/
structure Provider where
  info : String → Except String Info
  history : String → ℤ → ℤ → Except String (List OhlcvRow)

/-- Embedding of `get_stock_data` (src/stock_dashboard.py lines 15-23):
on success the `(ticker, info)` pair, collapsed to `some info`; on a raised
exception an `st.error` message and the `(None, None)` return, collapsed to
`none`. -/
def get_stock_data (providerInfo : Except String Info) (ticker_symbol : String) :
    Option Info × List Msg :=
  match providerInfo with
  | .ok i => (some i, [])
  | .error e =>
      (none, [⟨MsgKind.error, "Error fetching data for " ++ ticker_symbol ++ ": " ++ e⟩])

/-- Embedding of `get_historical_data` (src/stock_dashboard.py lines
25-45): resolves the period to a start/end window, then calls
`ticker.history` (a parameter here); a raised exception is caught, reported
via `st.error`, and turned into `None`. -/
def get_historical_data (tickerHistory : ℤ → ℤ → Except String (List OhlcvRow))
    (period : String) (now : ℤ) : Option (List OhlcvRow) × List Msg :=
  let w := resolveWindow period now
  match tickerHistory w.1 w.2 with
  | .ok rows => (some rows, [])
  | .error e => (none, [⟨MsgKind.error, "Error fetching historical data: " ++ e⟩])

/-- Model of Python's `str.upper()` on the ASCII inputs the dashboard
handles: uppercase each character in place — no other change, in
particular no trimming. -/
def pyUpper (s : String) : String := ⟨s.data.map Char.toUpper⟩

/-- An ASCII single-quote character as a string (used by the failure
message, which wraps the symbol in single quotes). -/
def squote : String := String.singleton (Char.ofNat 39)

/-- The `st.error` text of the failure branch (line 233). -/
def couldNotFindMsg (t : String) : String :=
  ("Could not find stock data for ticker " ++ squote) ++ t ++
    (squote ++ ". Please check the symbol and try again.")

/-- The `st.error` text of the empty-history branch (line 231). -/
def noDataMsg (t : String) : String :=
  "No historical data available for " ++ t ++ " over the selected time period."

/-- The `st.warning` text of the empty-input guard (line 95). -/
def emptyInputWarning : String := "Please enter a stock ticker symbol."

/-- Observable outcome of one top-to-bottom execution of the module body:
the warning/error messages emitted, how many provider profile and history
lookups were issued, whether the profile rendering began (company info and key
metrics) were rendered, and how many rows feed the chart and table. -/
structure RunResult where
  msgs : List Msg
  profileCalls : ℕ
  historyCalls : ℕ
  profileShown : Bool
  chartRows : ℕ
  crashed : Bool
deriving DecidableEq, Repr

/-- Embedding of the module body (src/stock_dashboard.py lines 85-233) for
one script execution. Streamlit re-runs the whole script on every widget
interaction, so one interaction — a symbol submit, a text-input change, or
a period-selectbox change — is one `scriptRun` over the current widget
values. `rawInput` is the text-input value, `submit_button` the button
state (true only on the run triggered by the button press), and
`selected_period` the selectbox value. `ticker_input` is the input text
uppercased (line 87). Per-field metric formatting is modelled by the
formatter functions above; the rendering of the found profile is recorded
here as `profileShown`, and an uncaught exception of the metrics block
(`metricsCrash`, the line 136 division among them) halts the run — it
sets `crashed` and the period selectbox and historical lookup (lines
155-231) are never reached. -/
def scriptRun (prov : Provider) (now : ℤ) (rawInput : String)
    (submit_button : Bool) (selected_period : String) : RunResult :=
  let ticker_input := pyUpper rawInput
  if submit_button = true ∨ ticker_input ≠ "" then
    if ticker_input = "" then
      ⟨[⟨MsgKind.warning, emptyInputWarning⟩], 0, 0, false, 0, false⟩
    else
      let r := get_stock_data (prov.info ticker_input) ticker_input
      match r.1 with
      | some i =>
        if i.isEmpty then
          ⟨r.2 ++ [⟨MsgKind.error, couldNotFindMsg ticker_input⟩], 1, 0, false, 0, false⟩
        else
          if metricsCrash i then
            ⟨r.2, 1, 0, true, 0, true⟩
          else
            let h := get_historical_data (prov.history ticker_input) selected_period now
            match h.1 with
            | some rows =>
              if rows.isEmpty then
                ⟨r.2 ++ h.2 ++ [⟨MsgKind.error, noDataMsg ticker_input⟩], 1, 1, true, 0, false⟩
              else
                ⟨r.2 ++ h.2, 1, 1, true, rows.length, false⟩
            | none =>
              ⟨r.2 ++ h.2 ++ [⟨MsgKind.error, noDataMsg ticker_input⟩], 1, 1, true, 0, false⟩
      | none => ⟨r.2 ++ [⟨MsgKind.error, couldNotFindMsg ticker_input⟩], 1, 0, false, 0, false⟩
  else ⟨[], 0, 0, false, 0, false⟩

/-- A provider stub whose profile lookup raises. -/
def provRaises : Provider :=
  ⟨fun _ => .error "boom", fun _ _ _ => .ok []⟩

/-- A provider stub with a non-empty profile and an empty historical
series. -/
def provNoData : Provider :=
  ⟨fun _ => .ok [("longName", PyVal.str "Apple Inc.")], fun _ _ _ => .ok []⟩

/-- A provider stub with a non-empty profile and a one-row historical
series. -/
def provGood : Provider :=
  ⟨fun _ => .ok [("longName", PyVal.str "Apple Inc.")],
   fun _ _ _ => .ok [⟨0, 1, 1, 1, 1, 1⟩]⟩

/-- A provider stub whose profile carries a current price together with a
zero previous close — the profile on which the metrics block divides by
zero (line 136). -/
def provZeroPrevClose : Provider :=
  ⟨fun _ => .ok [("currentPrice", PyVal.num 100), ("previousClose", PyVal.num 0)],
   fun _ _ _ => .ok [⟨0, 1, 1, 1, 1, 1⟩]⟩

/-! Evaluation lemmas for the formatter model. -/

theorem floorNonneg_natCast (n : ℕ) : floorNonneg (n : ℚ) = (n : ℤ) := by
  simp [floorNonneg]

theorem roundHalfEvenNonneg_natCast (n : ℕ) :
    roundHalfEvenNonneg (n : ℚ) = (n : ℤ) := by
  simp only [roundHalfEvenNonneg, floorNonneg_natCast]
  have h0 : ((n : ℚ) - ((n : ℤ) : ℚ)) = 0 := by push_cast; ring
  rw [h0]
  norm_num

theorem format2f_nat (q : ℚ) (n : ℕ) (hq : 0 ≤ q) (h : q * 100 = (n : ℚ)) :
    format2f q = toString (n / 100) ++ "." ++
      (if n % 100 < 10 then "0" ++ toString (n % 100) else toString (n % 100)) := by
  have hneg : ¬ q < 0 := not_lt.mpr hq
  simp only [format2f, if_neg hneg, h, roundHalfEvenNonneg_natCast, Int.toNat_natCast]
  simp

theorem format2f_neg_nat (q : ℚ) (n : ℕ) (hq : q < 0) (h : -q * 100 = (n : ℚ)) :
    format2f q = "-" ++ toString (n / 100) ++ "." ++
      (if n % 100 < 10 then "0" ++ toString (n % 100) else toString (n % 100)) := by
  simp only [format2f, if_pos hq, h, roundHalfEvenNonneg_natCast, Int.toNat_natCast]

theorem noDataMsg_ne_couldNotFindMsg (t : String) :
    noDataMsg t ≠ couldNotFindMsg t := by
  intro h
  have h2 := congrArg String.length h
  simp only [noDataMsg, couldNotFindMsg, String.length_append] at h2
  have e1 : ("No historical data available for ").length = 33 := by decide
  have e2 : (" over the selected time period.").length = 31 := by decide
  have e3 : ("Could not find stock data for ticker ").length = 37 := by decide
  have e4 : (". Please check the symbol and try again.").length = 40 := by decide
  have e5 : squote.length = 1 := by decide
  rw [e1, e2, e3, e4, e5] at h2
  omega

/-! Claim theorems. -/

/-- C1: The spec claims the percent-change formatter is total on zero: when
the previous close is absent or zero the delta is omitted and no division
by zero occurs, in particular at (100, 0). The code guards only on the
`previousClose` key being absent: with the key present and equal to 0 the
delta expression divides by zero and raises (outer `none`), while only the
absent key omits the delta (`some none`). -/
theorem C1_previousClose_zero_raises :
    percentChangeDelta 100 (some 0) = none ∧
    percentChangeDelta 100 none = some none := by
  constructor
  · simp [percentChangeDelta]
  · rfl

/-- C2: For every period selector in the enumeration and every `now`, the
resolved window is `(now - offset, now)` with offsets 7, 30, 180, 365
respectively, and every selector outside the enumeration resolves with the
30-day offset. -/
theorem C2_window_offsets (now : ℤ) :
    resolveWindow "1 Week" now = (now - 7, now) ∧
    resolveWindow "1 Month" now = (now - 30, now) ∧
    resolveWindow "6 Months" now = (now - 180, now) ∧
    resolveWindow "1 Year" now = (now - 365, now) ∧
    (∀ p : String, p ≠ "1 Week" → p ≠ "1 Month" → p ≠ "6 Months" →
      p ≠ "1 Year" → resolveWindow p now = (now - 30, now)) := by
  refine ⟨rfl, rfl, rfl, rfl, fun p h1 h2 h3 h4 => ?_⟩
  simp [resolveWindow, h1, h2, h3, h4]

/-- Witness for C2 at `now = 0` and the unrecognized selector `"2 Weeks"`. -/
theorem C2_witness : resolveWindow "2 Weeks" 0 = (0 - 30, 0) :=
  (C2_window_offsets 0).2.2.2.2 "2 Weeks" (by decide) (by decide) (by decide)
    (by decide)

/-- C3 counterexample: the claim says the normalizer trims surrounding
whitespace, mapping the input of two spaces, aapl, one space to "AAPL";
the code only uppercases (line 87 applies `.upper()` and never strips), so
that input normalizes to "  AAPL ", not "AAPL". -/
theorem C3_counterexample :
    pyUpper "  aapl " = "  AAPL " ∧ "  AAPL " ≠ "AAPL" := by decide

/-- C3 amended: for every raw ticker input string, the input normalizer
converts to uppercase but does not trim — it preserves the length of the
input, and the input of two spaces, aapl, one space normalizes to
"  AAPL ". -/
theorem C3_upper_no_trim :
    pyUpper "  aapl " = "  AAPL " ∧
    (∀ s : String, (pyUpper s).length = s.length) := by
  refine ⟨by decide, fun s => ?_⟩
  show (s.data.map Char.toUpper).length = s.data.length
  exact List.length_map _ _

/-- C4: `format_large_number` is total over optional input: absent input
gives "N/A"; a present value is scaled by the largest applicable suffix
among T (1e12), B (1e9), M (1e6), K (1e3) with two decimals and a dollar
prefix; values below 1000 print as plain two-decimal currency; in
particular 2500000000 gives "$2.50B" and 999 gives "$999.00". -/
theorem C4_format_large_number_total :
    format_large_number none = "N/A" ∧
    format_large_number (some 2500000000) = "$2.50B" ∧
    format_large_number (some 999) = "$999.00" ∧
    (∀ n : ℚ, 1000000000000 ≤ n →
      format_large_number (some n) = "$" ++ format2f (n / 1000000000000) ++ "T") ∧
    (∀ n : ℚ, 1000000000 ≤ n → n < 1000000000000 →
      format_large_number (some n) = "$" ++ format2f (n / 1000000000) ++ "B") ∧
    (∀ n : ℚ, 1000000 ≤ n → n < 1000000000 →
      format_large_number (some n) = "$" ++ format2f (n / 1000000) ++ "M") ∧
    (∀ n : ℚ, 1000 ≤ n → n < 1000000 →
      format_large_number (some n) = "$" ++ format2f (n / 1000) ++ "K") ∧
    (∀ n : ℚ, n < 1000 → format_large_number (some n) = "$" ++ format2f n) := by
  refine ⟨rfl, ?_, ?_, ?_, ?_, ?_, ?_, ?_⟩
  · simp only [format_large_number]
    rw [if_neg (by norm_num), if_pos (by norm_num),
      format2f_nat (2500000000/1000000000 : ℚ) 250 (by norm_num) (by norm_num)]
    decide
  · simp only [format_large_number]
    rw [if_neg (by norm_num), if_neg (by norm_num), if_neg (by norm_num),
      if_neg (by norm_num), format2f_nat 999 99900 (by norm_num) (by norm_num)]
    decide
  · intro n h1
    simp only [format_large_number]
    rw [if_pos h1]
  · intro n h1 h2
    simp only [format_large_number]
    rw [if_neg (by linarith), if_pos h1]
  · intro n h1 h2
    simp only [format_large_number]
    rw [if_neg (by linarith), if_neg (by linarith), if_pos h1]
  · intro n h1 h2
    simp only [format_large_number]
    rw [if_neg (by linarith), if_neg (by linarith), if_neg (by linarith),
      if_pos h1]
  · intro n h1
    simp only [format_large_number]
    rw [if_neg (by linarith), if_neg (by linarith), if_neg (by linarith),
      if_neg (by linarith)]

/-- Witness for C4: each threshold branch at a concrete input. -/
theorem C4_witness :
    format_large_number (some 3000000000000) =
      "$" ++ format2f (3000000000000 / 1000000000000) ++ "T" ∧
    format_large_number (some 2000000000) =
      "$" ++ format2f (2000000000 / 1000000000) ++ "B" ∧
    format_large_number (some 3000000) = "$" ++ format2f (3000000 / 1000000) ++ "M" ∧
    format_large_number (some 5000) = "$" ++ format2f (5000 / 1000) ++ "K" ∧
    format_large_number (some 42) = "$" ++ format2f 42 :=
  ⟨C4_format_large_number_total.2.2.2.1 3000000000000 (by norm_num),
   C4_format_large_number_total.2.2.2.2.1 2000000000 (by norm_num) (by norm_num),
   C4_format_large_number_total.2.2.2.2.2.1 3000000 (by norm_num) (by norm_num),
   C4_format_large_number_total.2.2.2.2.2.2.1 5000 (by norm_num) (by norm_num),
   C4_format_large_number_total.2.2.2.2.2.2.2 42 (by norm_num)⟩

/-! Characterizations of one script run, by provider outcome. These are
shared helper lemmas about `scriptRun`. -/

theorem scriptRun_profile_raises (prov : Provider) (now : ℤ) (raw : String)
    (sb : Bool) (period : String) (e : String) (hne : pyUpper raw ≠ "")
    (he : prov.info (pyUpper raw) = Except.error e) :
    scriptRun prov now raw sb period =
      ⟨[⟨MsgKind.error, "Error fetching data for " ++ pyUpper raw ++ ": " ++ e⟩,
        ⟨MsgKind.error, couldNotFindMsg (pyUpper raw)⟩], 1, 0, false, 0, false⟩ := by
  simp [scriptRun, hne, he, get_stock_data]

theorem scriptRun_profile_empty (prov : Provider) (now : ℤ) (raw : String)
    (sb : Bool) (period : String) (hne : pyUpper raw ≠ "")
    (hok : prov.info (pyUpper raw) = Except.ok []) :
    scriptRun prov now raw sb period =
      ⟨[⟨MsgKind.error, couldNotFindMsg (pyUpper raw)⟩], 1, 0, false, 0, false⟩ := by
  simp [scriptRun, hne, hok, get_stock_data, Info.isEmpty]

theorem scriptRun_metrics_crash (prov : Provider) (now : ℤ) (raw : String)
    (sb : Bool) (period : String) (i : Info)
    (hne : pyUpper raw ≠ "") (hi : i.isEmpty = false)
    (hprof : prov.info (pyUpper raw) = Except.ok i)
    (hcr : metricsCrash i = true) :
    scriptRun prov now raw sb period = ⟨[], 1, 0, true, 0, true⟩ := by
  simp [scriptRun, hne, hprof, hi, hcr, get_stock_data]

theorem scriptRun_history_empty (prov : Provider) (now : ℤ) (raw : String)
    (sb : Bool) (period : String) (i : Info)
    (hne : pyUpper raw ≠ "") (hi : i.isEmpty = false)
    (hcr : metricsCrash i = false)
    (hprof : prov.info (pyUpper raw) = Except.ok i)
    (hhist : prov.history (pyUpper raw) (resolveWindow period now).1
      (resolveWindow period now).2 = Except.ok []) :
    scriptRun prov now raw sb period =
      ⟨[⟨MsgKind.error, noDataMsg (pyUpper raw)⟩], 1, 1, true, 0, false⟩ := by
  simp [scriptRun, hne, hprof, hi, hcr, hhist, get_stock_data, get_historical_data]

theorem scriptRun_history_raises (prov : Provider) (now : ℤ) (raw : String)
    (sb : Bool) (period : String) (i : Info) (e : String)
    (hne : pyUpper raw ≠ "") (hi : i.isEmpty = false)
    (hcr : metricsCrash i = false)
    (hprof : prov.info (pyUpper raw) = Except.ok i)
    (hh : prov.history (pyUpper raw) (resolveWindow period now).1
      (resolveWindow period now).2 = Except.error e) :
    scriptRun prov now raw sb period =
      ⟨[⟨MsgKind.error, "Error fetching historical data: " ++ e⟩,
        ⟨MsgKind.error, noDataMsg (pyUpper raw)⟩], 1, 1, true, 0, false⟩ := by
  simp [scriptRun, hne, hprof, hi, hcr, hh, get_stock_data, get_historical_data]

theorem scriptRun_history_rows (prov : Provider) (now : ℤ) (raw : String)
    (sb : Bool) (period : String) (i : Info) (r0 : OhlcvRow)
    (rest : List OhlcvRow)
    (hne : pyUpper raw ≠ "") (hi : i.isEmpty = false)
    (hcr : metricsCrash i = false)
    (hprof : prov.info (pyUpper raw) = Except.ok i)
    (hh : prov.history (pyUpper raw) (resolveWindow period now).1
      (resolveWindow period now).2 = Except.ok (r0 :: rest)) :
    scriptRun prov now raw sb period =
      ⟨[], 1, 1, true, (r0 :: rest).length, false⟩ := by
  simp [scriptRun, hne, hprof, hi, hcr, hh, get_stock_data, get_historical_data]

theorem scriptRun_input_empty_submit (prov : Provider) (now : ℤ)
    (period : String) :
    scriptRun prov now "" true period =
      ⟨[⟨MsgKind.warning, emptyInputWarning⟩], 0, 0, false, 0, false⟩ := by
  have h0 : pyUpper "" = "" := by decide
  simp [scriptRun, h0]

theorem scriptRun_input_empty_nosubmit (prov : Provider) (now : ℤ)
    (period : String) :
    scriptRun prov now "" false period = ⟨[], 0, 0, false, 0, false⟩ := by
  have h0 : pyUpper "" = "" := by decide
  simp [scriptRun, h0]

theorem scriptRun_zero_prevClose_halts :
    metricsCrash [("currentPrice", PyVal.num 100), ("previousClose", PyVal.num 0)]
      = true ∧
    (scriptRun provZeroPrevClose 0 "aapl" true "1 Month").historyCalls = 0 ∧
    (scriptRun provZeroPrevClose 0 "aapl" true "1 Month").crashed = true := by
  refine ⟨?_, ?_, ?_⟩ <;>
    simp [metricsCrash, scriptRun, provZeroPrevClose, get_stock_data, Info.isEmpty,
      Info.lookup, List.lookup, PyVal.isNAStr, PyVal.numFormatRaises, divRaises,
      PyVal.truthy, pyUpper]

/-- C5 counterexample: with a valid profile and an empty historical series,
the only message of the run is emitted through `st.error` — the error
banner — while the claim says the no-data outcome is rendered as an
informational message rather than an error banner. -/
theorem C5_counterexample :
    (scriptRun provNoData 0 "aapl" true "1 Month").msgs =
      [⟨MsgKind.error, noDataMsg "AAPL"⟩] ∧
    MsgKind.error ≠ MsgKind.info := by decide

/-- C5 amended: for every valid symbol whose found profile renders without
the metrics-block crash (in particular no present-and-zero previous close,
the line 136 bug) and whose historical lookup succeeds with an empty
series, the run still renders the profile and completes (Displaying — not
the could-not-find Failed branch, and not the crash halt) with zero chart
rows, and emits a no-data message whose text is distinct from the
lookup-failure message — but that message goes through the error banner
(`st.error`), not an informational surface. -/
theorem C5_empty_series_displays (prov : Provider) (now : ℤ) (raw : String)
    (sb : Bool) (period : String) (i : Info)
    (hne : pyUpper raw ≠ "") (hi : i.isEmpty = false)
    (hcr : metricsCrash i = false)
    (hprof : prov.info (pyUpper raw) = Except.ok i)
    (hhist : prov.history (pyUpper raw) (resolveWindow period now).1
      (resolveWindow period now).2 = Except.ok []) :
    (scriptRun prov now raw sb period).profileShown = true ∧
    (scriptRun prov now raw sb period).crashed = false ∧
    (scriptRun prov now raw sb period).chartRows = 0 ∧
    (scriptRun prov now raw sb period).msgs =
      [⟨MsgKind.error, noDataMsg (pyUpper raw)⟩] ∧
    noDataMsg (pyUpper raw) ≠ couldNotFindMsg (pyUpper raw) := by
  rw [scriptRun_history_empty prov now raw sb period i hne hi hcr hprof hhist]
  exact ⟨rfl, rfl, rfl, rfl, noDataMsg_ne_couldNotFindMsg _⟩

/-- Witness for C5 amended: the empty-series stub provider on input aapl. -/
theorem C5_witness :
    (scriptRun provNoData 0 "aapl" true "1 Month").profileShown = true ∧
    (scriptRun provNoData 0 "aapl" true "1 Month").crashed = false ∧
    (scriptRun provNoData 0 "aapl" true "1 Month").chartRows = 0 ∧
    (scriptRun provNoData 0 "aapl" true "1 Month").msgs =
      [⟨MsgKind.error, noDataMsg (pyUpper "aapl")⟩] ∧
    noDataMsg (pyUpper "aapl") ≠ couldNotFindMsg (pyUpper "aapl") :=
  C5_empty_series_displays provNoData 0 "aapl" true "1 Month"
    [("longName", PyVal.str "Apple Inc.")] (by decide) rfl (by decide) rfl rfl

/-- C6: for every symbol input (with a non-empty normalized symbol), if the
provider profile lookup raises or returns no identifiable record (an empty
profile dictionary), the run reaches the failure branch without crashing —
the profile is not shown, no historical lookup is made, and in both cases
the same could-not-find error message, which contains the requested
symbol, is emitted. -/
theorem C6_lookup_failures (prov : Provider) (now : ℤ) (raw : String)
    (sb : Bool) (period : String) (hne : pyUpper raw ≠ "")
    (hfail : (∃ e, prov.info (pyUpper raw) = Except.error e) ∨
             prov.info (pyUpper raw) = Except.ok []) :
    (scriptRun prov now raw sb period).profileShown = false ∧
    (scriptRun prov now raw sb period).historyCalls = 0 ∧
    Msg.mk MsgKind.error (couldNotFindMsg (pyUpper raw)) ∈
      (scriptRun prov now raw sb period).msgs ∧
    ∃ pre post, couldNotFindMsg (pyUpper raw) = pre ++ pyUpper raw ++ post := by
  have hmsg : ∃ pre post,
      couldNotFindMsg (pyUpper raw) = pre ++ pyUpper raw ++ post :=
    ⟨"Could not find stock data for ticker " ++ squote,
     squote ++ ". Please check the symbol and try again.", rfl⟩
  rcases hfail with ⟨e, he⟩ | hok
  · rw [scriptRun_profile_raises prov now raw sb period e hne he]
    exact ⟨rfl, rfl, by simp, hmsg⟩
  · rw [scriptRun_profile_empty prov now raw sb period hne hok]
    exact ⟨rfl, rfl, by simp, hmsg⟩

/-- Witness for C6: the raising stub provider on input aapl. -/
theorem C6_witness :
    (scriptRun provRaises 0 "aapl" true "1 Month").profileShown = false ∧
    (scriptRun provRaises 0 "aapl" true "1 Month").historyCalls = 0 ∧
    Msg.mk MsgKind.error (couldNotFindMsg (pyUpper "aapl")) ∈
      (scriptRun provRaises 0 "aapl" true "1 Month").msgs ∧
    (∃ pre post,
      couldNotFindMsg (pyUpper "aapl") = pre ++ pyUpper "aapl" ++ post) :=
  C6_lookup_failures provRaises 0 "aapl" true "1 Month" (by decide)
    (Or.inl ⟨"boom", rfl⟩)

/-- C7 counterexample: a whitespace-only ticker input is truthy in Python,
so it passes the empty-input guard: the run issues a provider call
(profileCalls = 1) and emits no warning, while the claim says every
whitespace-only input signals the empty-input failure with zero provider
invocations. -/
theorem C7_counterexample :
    (scriptRun provGood 0 "  " false "1 Month").profileCalls = 1 ∧
    (scriptRun provGood 0 "  " false "1 Month").msgs = [] := by decide

/-- C7 amended: only the exactly-empty ticker input is caught by the guard:
with empty input and the button pressed, the distinct warning is emitted
and no provider call is made; with empty input and no button press the run
renders nothing and makes no provider call; a whitespace-only input passes
the guard and a provider call is made. -/
theorem C7_empty_guard_exact_only (prov : Provider) (now : ℤ)
    (period : String) :
    scriptRun prov now "" true period =
      ⟨[⟨MsgKind.warning, emptyInputWarning⟩], 0, 0, false, 0, false⟩ ∧
    scriptRun prov now "" false period = ⟨[], 0, 0, false, 0, false⟩ ∧
    (scriptRun provGood 0 "  " false "1 Month").profileCalls = 1 :=
  ⟨scriptRun_input_empty_submit prov now period,
   scriptRun_input_empty_nosubmit prov now period, by decide⟩

/-- C8 counterexample: the delta string for (101, 100) is "1.00%" — the
`:.2f` format emits no plus sign — while the claim says it is "+1.00%". -/
theorem C8_counterexample :
    percentChangeDelta 101 (some 100) = some (some "1.00%") ∧
    "1.00%" ≠ "+1.00%" := by
  constructor
  · simp only [percentChangeDelta]
    rw [if_neg (by norm_num),
      format2f_nat ((101/100 - 1) * 100 : ℚ) 100 (by norm_num) (by norm_num)]
    decide
  · decide

/-- C8 amended: for every current and non-zero previous price the delta is
the percent change formatted to two decimals with a percent sign; negative
changes carry a leading minus sign but positive changes carry no plus
sign: (101, 100) gives "1.00%" and (99, 100) gives "-1.00%". -/
theorem C8_two_decimals_unsigned_positive (current p : ℚ) (hp : p ≠ 0) :
    percentChangeDelta current (some p) =
      some (some (format2f ((current / p - 1) * 100) ++ "%")) ∧
    percentChangeDelta 101 (some 100) = some (some "1.00%") ∧
    percentChangeDelta 99 (some 100) = some (some "-1.00%") := by
  refine ⟨by simp [percentChangeDelta, hp], ?_, ?_⟩
  · simp only [percentChangeDelta]
    rw [if_neg (by norm_num),
      format2f_nat ((101/100 - 1) * 100 : ℚ) 100 (by norm_num) (by norm_num)]
    decide
  · simp only [percentChangeDelta]
    rw [if_neg (by norm_num),
      format2f_neg_nat ((99/100 - 1) * 100 : ℚ) 100 (by norm_num) (by norm_num)]
    decide

/-- Witness for C8 amended at (101, 100). -/
theorem C8_witness :
    percentChangeDelta 101 (some 100) =
      some (some (format2f ((101 / 100 - 1) * 100) ++ "%")) ∧
    percentChangeDelta 101 (some 100) = some (some "1.00%") ∧
    percentChangeDelta 99 (some 100) = some (some "-1.00%") :=
  C8_two_decimals_unsigned_positive 101 100 (by norm_num)

/-- C9 counterexample: a rerun caused by selecting a new period (same
symbol text persisted, submit button false on the rerun) still issues a
profile lookup — the claim says the profile is not re-fetched on a period
change. -/
theorem C9_counterexample :
    (scriptRun provGood 0 "aapl" false "6 Months").profileCalls ≠ 0 := by
  decide

/-- C9 amended: the framework re-executes the whole script on every
interaction, so every run with a non-empty symbol and a found profile
whose metrics block renders without raising (in particular no
present-and-zero previous close) — including the rerun caused by a period
change — issues the profile lookup and the historical lookup again
(exactly one of each per run); a symbol change likewise re-issues both. -/
theorem C9_both_lookups_each_run (prov : Provider) (now : ℤ) (raw : String)
    (sb : Bool) (period : String) (i : Info)
    (hne : pyUpper raw ≠ "") (hi : i.isEmpty = false)
    (hcr : metricsCrash i = false)
    (hprof : prov.info (pyUpper raw) = Except.ok i) :
    (scriptRun prov now raw sb period).profileCalls = 1 ∧
    (scriptRun prov now raw sb period).historyCalls = 1 := by
  rcases hh : prov.history (pyUpper raw) (resolveWindow period now).1
      (resolveWindow period now).2 with e | rows
  · rw [scriptRun_history_raises prov now raw sb period i e hne hi hcr hprof hh]
    exact ⟨rfl, rfl⟩
  · rcases rows with _ | ⟨r0, rest⟩
    · rw [scriptRun_history_empty prov now raw sb period i hne hi hcr hprof hh]
      exact ⟨rfl, rfl⟩
    · rw [scriptRun_history_rows prov now raw sb period i r0 rest hne hi hcr hprof hh]
      exact ⟨rfl, rfl⟩

/-- Witness for C9 amended: the period-change rerun with the stub provider. -/
theorem C9_witness :
    (scriptRun provGood 0 "aapl" false "6 Months").profileCalls = 1 ∧
    (scriptRun provGood 0 "aapl" false "6 Months").historyCalls = 1 :=
  C9_both_lookups_each_run provGood 0 "aapl" false "6 Months"
    [("longName", PyVal.str "Apple Inc.")] (by decide) rfl (by decide) rfl

/-- C10: every negative input takes the plain-currency branch of
`format_large_number` — no K/M/B/T suffix is applied — and in particular
-2000000000 formats as "$-2000000000.00". -/
theorem C10_negative_plain_branch :
    (∀ n : ℚ, n < 0 → format_large_number (some n) = "$" ++ format2f n) ∧
    format_large_number (some (-2000000000)) = "$-2000000000.00" := by
  have hbr : ∀ n : ℚ, n < 0 →
      format_large_number (some n) = "$" ++ format2f n := by
    intro n hn
    simp only [format_large_number]
    rw [if_neg (by linarith), if_neg (by linarith), if_neg (by linarith),
      if_neg (by linarith)]
  refine ⟨hbr, ?_⟩
  rw [hbr (-2000000000) (by norm_num),
    format2f_neg_nat (-2000000000) 200000000000 (by norm_num) (by norm_num)]
  decide

/-- Witness for C10 at -5. -/
theorem C10_witness : format_large_number (some (-5)) = "$" ++ format2f (-5) :=
  C10_negative_plain_branch.1 (-5) (by norm_num)
